import Mathlib

/-!
# react-native-perfetto: the `Tracer` core

A shallow embedding of `cpp/ReactNativePerfettoTracer.{h,cpp}` and theorems about it.

Conventions of the embedding

* The two compile-time switches of the source are explicit parameters: `Build` carries
  `RN_PERFETTO_WITH_SDK` and the target platform (`__ANDROID__`, `__APPLE__ && TARGET_OS_IOS`,
  anything else).
* The private fields of `class Tracer` are the fields of the structure `Tracer`.  In a build
  without the SDK the four SDK-only fields do not exist in the C++ object; here they are
  present and never touched.  `signpost_log_` is written once by the constructor and only
  read afterwards, `mutex_` serialises the critical sections: neither is part of the state.
* Every member function takes the `Tracer` before the call and returns the `Tracer` after
  it, its return value, the contents of its out-parameters and the list of calls it made
  into the Perfetto SDK, the filesystem and the platform tracing facilities (`Effect`).
* A `std::string *` out-parameter is an `Option String`: `none` is `nullptr`, `some s` is a
  pointer to a string holding `s`.
* What the outside world answers during one call (clock, directories, the bytes the SDK
  read back, whether the output stream opened, the signpost id the OS generated, whether
  `dlsym` found `ATrace_setCounter`) is the record `Env`.
* `uint64_t` is `Nat` with explicit reduction modulo `2 ^ 64` at the one increment of the
  source.
* `tracing_session_->...` on a null `unique_ptr` is undefined behaviour; `StopRecording`
  returns `none` there.
* `buildDefaultPath` calls the throwing overloads `std::filesystem::temp_directory_path()`
  and `std::filesystem::current_path()`.  `Env.base_path` is `none` when that call throws
  `std::filesystem::filesystem_error`.  The source has no `try`/`catch`: the exception
  leaves `StartRecording` or `StopRecording` at that point, the `lock_guard` releases the
  mutex, and the `Tracer` keeps what the statements before the throw wrote.  Such a call
  ends with `Completion.threw`; a run goes on after it, since a caller may catch.
* Calls into the Perfetto SDK are taken to return normally, and memory is taken not to run
  out (`std::bad_alloc` is not modelled); the concrete runs below keep the track stack at a
  few entries.
* `SetCounter` receives a `double` and forwards `std::llround(value)`; the rounded integer
  is the argument of the embedded function.
-/

namespace react_native_perfetto

/-- Modulus of `uint64_t` arithmetic. -/
def UINT64_MOD : Nat := 2 ^ 64

/-- The platform branches of the preprocessor: `__ANDROID__`, `__APPLE__ && TARGET_OS_IOS`,
or neither. -/
inductive Platform where
  | android
  | ios
  | other
deriving DecidableEq, Repr

/-- Compile-time configuration of the translation unit. -/
structure Build where
  RN_PERFETTO_WITH_SDK : Bool
  platform : Platform
deriving DecidableEq, Repr

/-- A build that bundles the Perfetto SDK. -/
def sdkBuild (p : Platform) : Build := { RN_PERFETTO_WITH_SDK := true, platform := p }

/-- A build without the Perfetto SDK. -/
def noSdkBuild (p : Platform) : Build := { RN_PERFETTO_WITH_SDK := false, platform := p }

/-- The struct `RecordingConfig` of the header, with its default member initialisers. -/
structure RecordingConfig where
  file_path : String := ""
  buffer_size_kb : Nat := 4 * 1024
  duration_ms : Nat := 0
  enable_in_process_backend : Bool := true
  enable_system_backend : Bool := false
deriving DecidableEq, Repr

/-- The value `perfetto::kInProcessBackend` of the SDK's `BackendType` enumeration. -/
def kInProcessBackend : Nat := 1

/-- The value `perfetto::kSystemBackend` of the SDK's `BackendType` enumeration. -/
def kSystemBackend : Nat := 2

/-- The part of `perfetto::TraceConfig` that `StartRecording` fills in. -/
structure TraceConfig where
  buffers_size_kb : List Nat
  data_source_name : String
  enabled_categories : List String
  duration_ms : Option Nat
deriving DecidableEq, Repr

/-- What `tracing_session_` points to: the session made by `perfetto::Tracing::NewTrace`. -/
structure TracingSession where
  backend_type : Nat
  trace_config : TraceConfig
deriving DecidableEq, Repr

/-- Calls that leave the `Tracer`: into the Perfetto SDK, the filesystem, `ATrace_*` and
`os_signpost_*`. -/
inductive Effect where
  | perfettoTracingInit (backends : Nat)
  | trackEventRegister
  | newTrace (backend_type : Nat)
  | sessionSetup (trace_config : TraceConfig)
  | startBlocking
  | stopBlocking
  | readTraceBlocking
  | sessionDestroyed
  | ofstreamOpen (path : String) (is_open : Bool)
  | ofstreamWrite (path : String) (bytes : List Nat)
  | ofstreamClose (path : String)
  | traceEventBegin (event_name : String) (track : Nat)
  | traceEventEnd (track : Nat)
  | traceEventInstant (event_name : String)
  | traceCounter (counter_name : String) (value : Int)
  | atraceBeginSection (event_name : String)
  | atraceEndSection
  | atraceSetCounter (counter_name : String) (value : Int)
  | signpostIntervalBegin (signpost_id : Nat) (event_name : String)
  | signpostIntervalEnd (signpost_id : Nat)
  | signpostEventEmit (event_name : String)
deriving DecidableEq, Repr

/-- The data members of `class Tracer`. -/
structure Tracer where
  current_output_path_ : String
  recording_ : Bool
  perfetto_initialized_ : Bool
  tracing_session_ : Option TracingSession
  next_section_track_id_ : Nat
  active_section_track_ids_ : List Nat
deriving DecidableEq, Repr

/-- The `Tracer` right after construction (default member initialisers of the header). -/
def Tracer.initial : Tracer :=
  { current_output_path_ := ""
    recording_ := false
    perfetto_initialized_ := false
    tracing_session_ := none
    next_section_track_id_ := 1
    active_section_track_ids_ := [] }

/-- Answers of the outside world during one call. -/
structure Env where
  millis : Int
  base_path : Option String
  trace_bytes : List Nat
  output_is_open : Bool
  signpost_id : Nat
  set_counter_fn_found : Bool
deriving DecidableEq, Repr

/-- The operator `/` of `std::filesystem::path` for a relative right operand. -/
def pathAppend (base_path file : String) : String :=
  if base_path.isEmpty || base_path.back == '/' then base_path ++ file
  else base_path ++ "/" ++ file

/-- The function `buildDefaultPath`: a time-stamped file name under the directory the
filesystem reports; `none` when `temp_directory_path()` / `current_path()` throws. -/
def buildDefaultPath (env : Env) : Option String :=
  match env.base_path with
  | none => none
  | some base_path =>
    some (pathAppend base_path ("rn-perfetto-" ++ toString env.millis ++ ".perfetto-trace"))

/-- The function `sanitizeEventName`. -/
def sanitizeEventName (value fallback : String) : String :=
  if value.isEmpty then fallback else value

/-- The member `Tracer::IsPerfettoSdkAvailable`. -/
def IsPerfettoSdkAvailable (b : Build) : Bool :=
  if b.RN_PERFETTO_WITH_SDK then true else false

/-- The member `Tracer::resolveOutputPath`; `none` when `buildDefaultPath` throws. -/
def resolveOutputPath (requested_path : String) (env : Env) : Option String :=
  if !requested_path.isEmpty then some requested_path else buildDefaultPath env

/-- The member `Tracer::buildEventName`. -/
def buildEventName (category name args_json : String) : String :=
  let resolved_name := sanitizeEventName name "unnamed_event"
  let resolved_category := sanitizeEventName category "react-native"
  let result := resolved_category ++ ":" ++ resolved_name
  if !args_json.isEmpty then result ++ ("|args=" ++ args_json) else result

/-- The member `Tracer::ensurePerfettoInitialized`. -/
def ensurePerfettoInitialized (t : Tracer) (_enable_system_backend : Bool) :
    Tracer × List Effect :=
  if t.perfetto_initialized_ then (t, [])
  else
    ({ t with perfetto_initialized_ := true },
      [Effect.perfettoTracingInit (kInProcessBackend ||| kSystemBackend),
       Effect.trackEventRegister])

/-- Error text of a start while a session is running. -/
def alreadyRunningError : String := "A Perfetto recording session is already running."

/-- Error text of a start in a build without the SDK. -/
def sdkNotBundledError : String :=
  "Perfetto SDK is not bundled. Add sdk/perfetto.h and sdk/perfetto.cc " ++
  "under cpp/third_party/perfetto/ to enable recording."

/-- Error text of a stop without a running session. -/
def noActiveSessionError : String := "No active recording session to stop."

/-- Error text of a stop whose trace came back empty. -/
def emptyPayloadError : String := "Perfetto returned an empty trace payload."

/-- Error text of a stop in a build without the SDK. -/
def sdkNotAvailableError : String := "Perfetto SDK is not available; nothing to stop."

/-- Assignment `*error = msg` guarded by `error != nullptr`. -/
def assignIfNonNull (ptr : Option String) (msg : String) : Option String :=
  ptr.map (fun _ => msg)

/-- How a call ends: it returns a value, or a `std::filesystem::filesystem_error` thrown
inside it leaves it. -/
inductive Completion where
  | returned (value : Bool)
  | threw
deriving DecidableEq, Repr

/-- Result of `Tracer::StartRecording`. -/
structure StartOut where
  tracer : Tracer
  ret : Completion
  error : Option String
  effects : List Effect
deriving DecidableEq, Repr

/-- Result of `Tracer::StopRecording`. -/
structure StopOut where
  tracer : Tracer
  ret : Completion
  output_path : Option String
  error : Option String
  effects : List Effect
deriving DecidableEq, Repr

/-- Result of the event-emitting members: the `Tracer`, the calling thread's
`g_signpost_stack`, and the calls made. -/
structure EmitOut where
  tracer : Tracer
  g_signpost_stack : List Nat
  effects : List Effect
deriving DecidableEq, Repr

/-- The trace configuration `StartRecording` builds from the recording config. -/
def makeTraceConfig (config : RecordingConfig) : TraceConfig :=
  { buffers_size_kb := [config.buffer_size_kb]
    data_source_name := "track_event"
    enabled_categories := ["react-native", "react-native.native", "react-native.js"]
    duration_ms := if config.duration_ms > 0 then some config.duration_ms else none }

/-- The backend mask `StartRecording` computes from the two flags. -/
def backendMask (config : RecordingConfig) : Nat :=
  let m0 : Nat := 0
  let m1 := if config.enable_in_process_backend then m0 ||| kInProcessBackend else m0
  let m2 := if config.enable_system_backend then m1 ||| kSystemBackend else m1
  if m2 == 0 then kInProcessBackend else m2

/-- The member `Tracer::StartRecording`. -/
def StartRecording (b : Build) (t : Tracer) (config : RecordingConfig)
    (error : Option String) (env : Env) : StartOut :=
  if t.recording_ then
    { tracer := t, ret := Completion.returned false,
      error := assignIfNonNull error alreadyRunningError, effects := [] }
  else if b.RN_PERFETTO_WITH_SDK then
    let (t1, init_effects) := ensurePerfettoInitialized t config.enable_system_backend
    let trace_config := makeTraceConfig config
    let backend_type := backendMask config
    let replaced := if t1.tracing_session_.isSome then [Effect.sessionDestroyed] else []
    let t2 : Tracer :=
      { t1 with
        tracing_session_ := some { backend_type := backend_type, trace_config := trace_config } }
    let effects := init_effects ++ [Effect.newTrace backend_type] ++ replaced ++
      [Effect.sessionSetup trace_config, Effect.startBlocking]
    match resolveOutputPath config.file_path env with
    | none => { tracer := t2, ret := Completion.threw, error := error, effects := effects }
    | some path =>
      { tracer :=
          { t2 with
            current_output_path_ := path
            next_section_track_id_ := 1
            active_section_track_ids_ := []
            recording_ := true }
        ret := Completion.returned true
        error := error
        effects := effects }
  else
    { tracer := t, ret := Completion.returned false,
      error := assignIfNonNull error sdkNotBundledError, effects := [] }

/-- The member `Tracer::StopRecording`; `none` when the source dereferences a null
`tracing_session_`. -/
def StopRecording (b : Build) (t : Tracer) (output_path error : Option String)
    (env : Env) : Option StopOut :=
  if !t.recording_ then
    some { tracer := t, ret := Completion.returned false, output_path := output_path,
           error := assignIfNonNull error noActiveSessionError, effects := [] }
  else if b.RN_PERFETTO_WITH_SDK then
    match t.tracing_session_ with
    | none => none
    | some _ =>
      let trace_bytes := env.trace_bytes
      if trace_bytes.isEmpty then
        some { tracer := { t with recording_ := false, tracing_session_ := none }
               ret := Completion.returned false
               output_path := output_path
               error := assignIfNonNull error emptyPayloadError
               effects := [Effect.stopBlocking, Effect.readTraceBlocking,
                           Effect.sessionDestroyed] }
      else
        match resolveOutputPath t.current_output_path_ env with
        | none =>
          some { tracer := t, ret := Completion.threw, output_path := output_path,
                 error := error,
                 effects := [Effect.stopBlocking, Effect.readTraceBlocking] }
        | some resolved_path =>
          if !env.output_is_open then
            some { tracer := { t with recording_ := false, tracing_session_ := none }
                   ret := Completion.returned false
                   output_path := output_path
                   error :=
                     assignIfNonNull error ("Failed to open output file: " ++ resolved_path)
                   effects := [Effect.stopBlocking, Effect.readTraceBlocking,
                               Effect.ofstreamOpen resolved_path false,
                               Effect.sessionDestroyed] }
          else
            some { tracer := { t with active_section_track_ids_ := [], recording_ := false,
                                      tracing_session_ := none }
                   ret := Completion.returned true
                   output_path := assignIfNonNull output_path resolved_path
                   error := error
                   effects := [Effect.stopBlocking, Effect.readTraceBlocking,
                               Effect.ofstreamOpen resolved_path true,
                               Effect.ofstreamWrite resolved_path trace_bytes,
                               Effect.ofstreamClose resolved_path,
                               Effect.sessionDestroyed] }
  else
    some { tracer := t, ret := Completion.returned false,
           output_path := assignIfNonNull output_path "",
           error := assignIfNonNull error sdkNotAvailableError, effects := [] }

/-- The member `Tracer::BeginSection`. -/
def BeginSection (b : Build) (t : Tracer) (g_signpost_stack : List Nat)
    (category name args_json : String) (env : Env) : EmitOut :=
  let event_name := buildEventName category name args_json
  let sdk : Tracer × List Effect :=
    if b.RN_PERFETTO_WITH_SDK then
      let section_track_id := t.next_section_track_id_
      ({ t with
          next_section_track_id_ := (t.next_section_track_id_ + 1) % UINT64_MOD
          active_section_track_ids_ := t.active_section_track_ids_ ++ [section_track_id] },
        [Effect.traceEventBegin event_name section_track_id])
    else (t, [])
  match b.platform with
  | Platform.android =>
    { tracer := sdk.1, g_signpost_stack := g_signpost_stack,
      effects := sdk.2 ++ [Effect.atraceBeginSection event_name] }
  | Platform.ios =>
    { tracer := sdk.1, g_signpost_stack := g_signpost_stack ++ [env.signpost_id],
      effects := sdk.2 ++ [Effect.signpostIntervalBegin env.signpost_id event_name] }
  | Platform.other =>
    { tracer := sdk.1, g_signpost_stack := g_signpost_stack, effects := sdk.2 }

/-- The member `Tracer::EndSection`. -/
def EndSection (b : Build) (t : Tracer) (g_signpost_stack : List Nat) : EmitOut :=
  let sdk : Tracer × List Effect :=
    if b.RN_PERFETTO_WITH_SDK then
      let popped : Nat × List Nat :=
        match t.active_section_track_ids_.getLast? with
        | some back => (back, t.active_section_track_ids_.dropLast)
        | none => (0, t.active_section_track_ids_)
      let section_track_id := popped.1
      ({ t with active_section_track_ids_ := popped.2 },
        if section_track_id != 0 then [Effect.traceEventEnd section_track_id] else [])
    else (t, [])
  match b.platform with
  | Platform.android =>
    { tracer := sdk.1, g_signpost_stack := g_signpost_stack,
      effects := sdk.2 ++ [Effect.atraceEndSection] }
  | Platform.ios =>
    match g_signpost_stack.getLast? with
    | none => { tracer := sdk.1, g_signpost_stack := g_signpost_stack, effects := sdk.2 }
    | some signpost_id =>
      { tracer := sdk.1, g_signpost_stack := g_signpost_stack.dropLast,
        effects := sdk.2 ++ [Effect.signpostIntervalEnd signpost_id] }
  | Platform.other =>
    { tracer := sdk.1, g_signpost_stack := g_signpost_stack, effects := sdk.2 }

/-- The member `Tracer::InstantEvent`. -/
def InstantEvent (b : Build) (t : Tracer) (g_signpost_stack : List Nat)
    (category name args_json : String) : EmitOut :=
  let event_name := buildEventName category name args_json
  let sdk : List Effect :=
    if b.RN_PERFETTO_WITH_SDK then [Effect.traceEventInstant event_name] else []
  match b.platform with
  | Platform.ios =>
    { tracer := t, g_signpost_stack := g_signpost_stack,
      effects := sdk ++ [Effect.signpostEventEmit event_name] }
  | _ => { tracer := t, g_signpost_stack := g_signpost_stack, effects := sdk }

/-- The member `Tracer::SetCounter`; `rounded_value` is `std::llround(value)`. -/
def SetCounter (b : Build) (t : Tracer) (g_signpost_stack : List Nat)
    (category name : String) (rounded_value : Int) (args_json : String) (env : Env) :
    EmitOut :=
  let counter_name := buildEventName category name args_json
  let sdk : List Effect :=
    if b.RN_PERFETTO_WITH_SDK then [Effect.traceCounter counter_name rounded_value] else []
  match b.platform with
  | Platform.android =>
    { tracer := t, g_signpost_stack := g_signpost_stack,
      effects := sdk ++
        (if env.set_counter_fn_found then [Effect.atraceSetCounter counter_name rounded_value]
         else []) }
  | _ => { tracer := t, g_signpost_stack := g_signpost_stack, effects := sdk }

/-! ## Sequences of calls -/

/-- The process: the singleton `Tracer` and the thread-local `g_signpost_stack` of every
thread. -/
structure World where
  tracer : Tracer
  g_signpost_stack : Nat → List Nat

/-- A call of one public member function with its arguments. -/
inductive Call where
  | startRecording (config : RecordingConfig) (error : Option String)
  | stopRecording (output_path error : Option String)
  | beginSection (category name args_json : String)
  | endSection
  | instantEvent (category name args_json : String)
  | setCounter (category name : String) (rounded_value : Int) (args_json : String)
deriving DecidableEq, Repr

/-- A call together with the thread that makes it and the answers of the outside world
while it runs. -/
structure Invocation where
  thread : Nat
  env : Env
  call : Call
deriving DecidableEq, Repr

/-- What a call hands back to its caller. -/
inductive Reply where
  | startRecording (ret : Completion) (error : Option String)
  | stopRecording (ret : Completion) (output_path error : Option String)
  | void
deriving DecidableEq, Repr

/-- Whether the reply is that of a `StartRecording` that returned `true`. -/
def Reply.startSucceeded : Reply → Bool
  | Reply.startRecording (Completion.returned ret) _ => ret
  | _ => false

/-- Result of one call on the process. -/
structure StepOut where
  world : World
  reply : Reply
  effects : List Effect

/-- Writes the calling thread's signpost stack back. -/
def World.afterEmit (w : World) (thread : Nat) (r : EmitOut) : World :=
  { tracer := r.tracer
    g_signpost_stack := fun th => if th = thread then r.g_signpost_stack
                                  else w.g_signpost_stack th }

/-- One public call on the process. -/
def step (b : Build) (w : World) (i : Invocation) : Option StepOut :=
  match i.call with
  | Call.startRecording config error =>
    let r := StartRecording b w.tracer config error i.env
    some { world := { w with tracer := r.tracer }
           reply := Reply.startRecording r.ret r.error
           effects := r.effects }
  | Call.stopRecording output_path error =>
    match StopRecording b w.tracer output_path error i.env with
    | none => none
    | some r =>
      some { world := { w with tracer := r.tracer }
             reply := Reply.stopRecording r.ret r.output_path r.error
             effects := r.effects }
  | Call.beginSection category name args_json =>
    let r := BeginSection b w.tracer (w.g_signpost_stack i.thread) category name args_json i.env
    some { world := w.afterEmit i.thread r, reply := Reply.void, effects := r.effects }
  | Call.endSection =>
    let r := EndSection b w.tracer (w.g_signpost_stack i.thread)
    some { world := w.afterEmit i.thread r, reply := Reply.void, effects := r.effects }
  | Call.instantEvent category name args_json =>
    let r := InstantEvent b w.tracer (w.g_signpost_stack i.thread) category name args_json
    some { world := w.afterEmit i.thread r, reply := Reply.void, effects := r.effects }
  | Call.setCounter category name rounded_value args_json =>
    let r := SetCounter b w.tracer (w.g_signpost_stack i.thread) category name rounded_value
      args_json i.env
    some { world := w.afterEmit i.thread r, reply := Reply.void, effects := r.effects }

/-- The track of a `TRACE_EVENT_BEGIN`. -/
def Effect.beginTrack? : Effect → Option Nat
  | Effect.traceEventBegin _ track => some track
  | _ => none

/-- The track of a `TRACE_EVENT_END`. -/
def Effect.endTrack? : Effect → Option Nat
  | Effect.traceEventEnd track => some track
  | _ => none

/-- Whether the call is `perfetto::Tracing::NewTrace`. -/
def Effect.isNewTrace : Effect → Bool
  | Effect.newTrace _ => true
  | _ => false

/-- Whether the call is the destruction of the session `tracing_session_` owned. -/
def Effect.isSessionDestroyed : Effect → Bool
  | Effect.sessionDestroyed => true
  | _ => false

/-- Track identifiers handed to the SDK by `TRACE_EVENT_BEGIN`, in order. -/
def beginTracks (effects : List Effect) : List Nat :=
  effects.filterMap Effect.beginTrack?

/-- Tracks on which `TRACE_EVENT_END` was called, in order. -/
def endTracks (effects : List Effect) : List Nat :=
  effects.filterMap Effect.endTrack?

/-- Number of SDK sessions created. -/
def sessionsCreated (effects : List Effect) : Nat :=
  effects.countP Effect.isNewTrace

/-- Number of SDK sessions destroyed. -/
def sessionsDestroyed (effects : List Effect) : Nat :=
  effects.countP Effect.isSessionDestroyed

/-- A run in progress: the process, every call made to the outside so far, and the track
identifiers allocated since `next_section_track_id_` was last assigned `1` (by the
constructor or by a `StartRecording` that returned `true`). -/
structure RunState where
  world : World
  log : List Effect
  ids_since_counter_reset : List Nat

/-- The process at start-up. -/
def RunState.initial : RunState :=
  { world := { tracer := Tracer.initial, g_signpost_stack := fun _ => [] }
    log := []
    ids_since_counter_reset := [] }

/-- One call of a run. -/
def advance (b : Build) (s : RunState) (i : Invocation) : Option RunState :=
  match step b s.world i with
  | none => none
  | some o =>
    some { world := o.world
           log := s.log ++ o.effects
           ids_since_counter_reset :=
             (if o.reply.startSucceeded then [] else s.ids_since_counter_reset) ++
               beginTracks o.effects }

/-- A sequence of calls, in the order in which their critical sections run. -/
def run (b : Build) : RunState → List Invocation → Option RunState
  | s, [] => some s
  | s, i :: rest =>
    match advance b s i with
    | none => none
    | some s1 => run b s1 rest

/-- Whether the call is a `BeginSection`. -/
def Call.isBegin : Call → Bool
  | Call.beginSection _ _ _ => true
  | _ => false

/-- Whether the call is an `EndSection`. -/
def Call.isEnd : Call → Bool
  | Call.endSection => true
  | _ => false

/-- Number of `BeginSection` calls in a sequence. -/
def beginCount (calls : List Invocation) : Nat :=
  calls.countP (fun i => i.call.isBegin)

/-- Number of `EndSection` calls in a sequence. -/
def endCount (calls : List Invocation) : Nat :=
  calls.countP (fun i => i.call.isEnd)

/-! ## Invariants of a run in a build with the SDK -/

/-- While the recording flag is set a session is held, and the sessions created outnumber
the sessions destroyed by one exactly while a session is held. -/
def SessionInv (s : RunState) : Prop :=
  (s.world.tracer.recording_ = true → s.world.tracer.tracing_session_.isSome = true)
    ∧ sessionsCreated s.log =
        sessionsDestroyed s.log + (if s.world.tracer.tracing_session_.isSome then 1 else 0)

/-- The counter is a `uint64_t`; while fewer than `2 ^ 64` identifiers were allocated since
it was last assigned `1`, it is one more than their number, they are `1, 2, ...` in order,
and the track stack is increasing with entries among them. -/
def TrackInv (s : RunState) : Prop :=
  s.world.tracer.next_section_track_id_ < UINT64_MOD
    ∧ (s.ids_since_counter_reset.length < UINT64_MOD →
        s.world.tracer.next_section_track_id_
            = (1 + s.ids_since_counter_reset.length) % UINT64_MOD
          ∧ s.ids_since_counter_reset
              = (List.range s.ids_since_counter_reset.length).map (fun k => k + 1)
          ∧ s.world.tracer.active_section_track_ids_.Pairwise (fun a c => a < c)
          ∧ ∀ id ∈ s.world.tracer.active_section_track_ids_,
              1 ≤ id ∧ id ≤ s.ids_since_counter_reset.length)

/-! ## Concrete inputs -/

/-- An environment in which the SDK reads back two bytes and the output file opens. -/
def sampleEnv : Env :=
  { millis := 5, base_path := some "/tmp", trace_bytes := [80, 70], output_is_open := true,
    signpost_id := 7, set_counter_fn_found := true }

/-- An environment in which the SDK reads back nothing. -/
def emptyPayloadEnv : Env := { sampleEnv with trace_bytes := [] }

/-- An environment in which `std::filesystem::temp_directory_path()` throws. -/
def noDirectoryEnv : Env := { sampleEnv with base_path := none }

/-- A call made by thread `0` in `sampleEnv`. -/
def call (c : Call) : Invocation := { thread := 0, env := sampleEnv, call := c }

/-- The call `BeginSection("", "", "")`. -/
def beginCall : Invocation := call (Call.beginSection "" "" "")

/-- The call `EndSection()`. -/
def endCall : Invocation := call Call.endSection

/-- The call `StartRecording` with `file_path = "a.trace"` and a non-null `error`. -/
def startCall : Invocation := call (Call.startRecording { file_path := "a.trace" } (some ""))

/-- The call `StartRecording` with the default config (empty `file_path`) while the
directory lookup throws. -/
def startDefaultPathCall : Invocation :=
  { thread := 0, env := noDirectoryEnv, call := Call.startRecording {} (some "") }

/-- The sequence of `n` pairs `BeginSection`, `EndSection`. -/
def beginEndPairs : Nat → List Invocation
  | 0 => []
  | n + 1 => beginCall :: endCall :: beginEndPairs n

/-- The call `StopRecording` with non-null out-parameters. -/
def stopCall : Invocation := call (Call.stopRecording (some "") (some ""))

/-- The `Tracer` after `startCall` and one `beginCall`. -/
def recordingTracer : Tracer :=
  { current_output_path_ := "a.trace"
    recording_ := true
    perfetto_initialized_ := true
    tracing_session_ :=
      some { backend_type := 1, trace_config := makeTraceConfig { file_path := "a.trace" } }
    next_section_track_id_ := 2
    active_section_track_ids_ := [1] }


/-! ## Helper lemmas -/

theorem sanitizeEventName_eq (value fallback : String) :
    sanitizeEventName value fallback = if value = "" then fallback else value := by
  unfold sanitizeEventName
  by_cases h : value = ""
  · subst h; rfl
  · have : value.isEmpty = false := by
      cases hv : value.isEmpty
      · rfl
      · exact absurd ((String.isEmpty_iff value).1 hv) h
    simp [this, h]

theorem begin_tracer (p : Platform) (t : Tracer) (g : List Nat) (c n a : String) (env : Env) :
    (BeginSection (sdkBuild p) t g c n a env).tracer =
      { t with
        next_section_track_id_ := (t.next_section_track_id_ + 1) % UINT64_MOD
        active_section_track_ids_ := t.active_section_track_ids_ ++ [t.next_section_track_id_] } := by
  cases p <;> rfl

theorem begin_beginTracks (p : Platform) (t : Tracer) (g : List Nat) (c n a : String)
    (env : Env) :
    beginTracks (BeginSection (sdkBuild p) t g c n a env).effects
      = [t.next_section_track_id_] := by
  cases p <;> rfl

theorem begin_sessions (b : Build) (t : Tracer) (g : List Nat) (c n a : String)
    (env : Env) :
    sessionsCreated (BeginSection b t g c n a env).effects = 0
      ∧ sessionsDestroyed (BeginSection b t g c n a env).effects = 0 := by
  rcases b with ⟨sdk, p⟩
  cases p <;> cases sdk <;> exact ⟨rfl, rfl⟩

theorem end_tracer (p : Platform) (t : Tracer) (g : List Nat) :
    (EndSection (sdkBuild p) t g).tracer =
      { t with active_section_track_ids_ := t.active_section_track_ids_.dropLast } := by
  have h : ∀ l : List Nat, (match l.getLast? with
        | some back => (back, l.dropLast)
        | none => (0, l)).2 = l.dropLast := by
    intro l
    cases hl : l.getLast? with
    | none => simp [List.getLast?_eq_none_iff.1 hl]
    | some x => rfl
  cases p <;> simp only [EndSection, sdkBuild, if_true, h] 
  · cases g.getLast? <;> rfl

theorem end_beginTracks (b : Build) (t : Tracer) (g : List Nat) :
    beginTracks (EndSection b t g).effects = []
      ∧ sessionsCreated (EndSection b t g).effects = 0
      ∧ sessionsDestroyed (EndSection b t g).effects = 0 := by
  rcases b with ⟨sdk, p⟩
  cases h1 : t.active_section_track_ids_.getLast? <;> cases h2 : g.getLast? <;>
    cases p <;> cases sdk <;>
    simp [EndSection, beginTracks, sessionsCreated, sessionsDestroyed, h1, h2,
      Effect.beginTrack?, Effect.isNewTrace, Effect.isSessionDestroyed]

theorem end_endTracks (p : Platform) (t : Tracer) (g : List Nat) :
    endTracks (EndSection (sdkBuild p) t g).effects =
      match t.active_section_track_ids_.getLast? with
      | some back => if back = 0 then [] else [back]
      | none => [] := by
  cases h1 : t.active_section_track_ids_.getLast? <;> cases h2 : g.getLast? <;>
    cases p <;>
    simp [EndSection, sdkBuild, endTracks, h1, h2, Effect.endTrack?] <;>
    split <;> simp_all [Effect.endTrack?]

theorem emit_frame (b : Build) (t : Tracer) (g : List Nat) (c n a : String) (v : Int)
    (env : Env) :
    (InstantEvent b t g c n a).tracer = t
      ∧ beginTracks (InstantEvent b t g c n a).effects = []
      ∧ sessionsCreated (InstantEvent b t g c n a).effects = 0
      ∧ sessionsDestroyed (InstantEvent b t g c n a).effects = 0
      ∧ (SetCounter b t g c n v a env).tracer = t
      ∧ beginTracks (SetCounter b t g c n v a env).effects = []
      ∧ sessionsCreated (SetCounter b t g c n v a env).effects = 0
      ∧ sessionsDestroyed (SetCounter b t g c n v a env).effects = 0 := by
  rcases b with ⟨sdk, p⟩
  cases p <;> cases sdk <;> cases h : env.set_counter_fn_found <;>
    simp [InstantEvent, SetCounter, beginTracks, sessionsCreated, sessionsDestroyed, h,
      Effect.beginTrack?, Effect.isNewTrace, Effect.isSessionDestroyed]


theorem resolveOutputPath_eq_none (requested_path : String) (env : Env) :
    resolveOutputPath requested_path env = none ↔ requested_path = "" ∧ env.base_path = none := by
  unfold resolveOutputPath buildDefaultPath
  by_cases h : requested_path = ""
  · subst h
    cases env.base_path <;> simp [String.isEmpty]
  · have : requested_path.isEmpty = false := by
      cases hv : requested_path.isEmpty
      · rfl
      · exact absurd ((String.isEmpty_iff requested_path).1 hv) h
    simp [this, h]

theorem start_cases (p : Platform) (t : Tracer) (config : RecordingConfig)
    (error : Option String) (env : Env) :
    (t.recording_ = true
        ∧ StartRecording (sdkBuild p) t config error env =
            { tracer := t, ret := Completion.returned false,
              error := assignIfNonNull error alreadyRunningError, effects := [] })
      ∨ (t.recording_ = false
        ∧ (StartRecording (sdkBuild p) t config error env).error = error
        ∧ (StartRecording (sdkBuild p) t config error env).tracer.tracing_session_.isSome = true
        ∧ beginTracks (StartRecording (sdkBuild p) t config error env).effects = []
        ∧ sessionsCreated (StartRecording (sdkBuild p) t config error env).effects = 1
        ∧ sessionsDestroyed (StartRecording (sdkBuild p) t config error env).effects
            = (if t.tracing_session_.isSome then 1 else 0)
        ∧ ((∃ path, resolveOutputPath config.file_path env = some path
            ∧ (StartRecording (sdkBuild p) t config error env).ret = Completion.returned true
            ∧ (StartRecording (sdkBuild p) t config error env).tracer.recording_ = true
            ∧ (StartRecording (sdkBuild p) t config error env).tracer.next_section_track_id_ = 1
            ∧ (StartRecording (sdkBuild p) t config error env).tracer.active_section_track_ids_
                = []
            ∧ (StartRecording (sdkBuild p) t config error env).tracer.current_output_path_
                = path)
          ∨ (resolveOutputPath config.file_path env = none
            ∧ (StartRecording (sdkBuild p) t config error env).ret = Completion.threw
            ∧ (StartRecording (sdkBuild p) t config error env).tracer.recording_ = false
            ∧ (StartRecording (sdkBuild p) t config error env).tracer.next_section_track_id_
                = t.next_section_track_id_
            ∧ (StartRecording (sdkBuild p) t config error env).tracer.active_section_track_ids_
                = t.active_section_track_ids_
            ∧ (StartRecording (sdkBuild p) t config error env).tracer.current_output_path_
                = t.current_output_path_))) := by
  cases hr : t.recording_
  · right
    cases hpath : resolveOutputPath config.file_path env <;>
      cases hi : t.perfetto_initialized_ <;> cases hs : t.tracing_session_ <;>
      simp [StartRecording, sdkBuild, hr, hi, hs, hpath, ensurePerfettoInitialized, beginTracks,
        sessionsCreated, sessionsDestroyed, Effect.beginTrack?, Effect.isNewTrace,
        Effect.isSessionDestroyed]
  · left
    simp [StartRecording, hr]

theorem stop_cases (p : Platform) (t : Tracer) (output_path error : Option String) (env : Env)
    (hsession : t.recording_ = true → t.tracing_session_.isSome = true) :
    ∃ r, StopRecording (sdkBuild p) t output_path error env = some r
      ∧ ((t.recording_ = false ∧ r.tracer = t ∧ r.ret = Completion.returned false
          ∧ r.effects = [])
        ∨ (t.recording_ = true
          ∧ env.trace_bytes ≠ []
          ∧ resolveOutputPath t.current_output_path_ env = none
          ∧ r.tracer = t ∧ r.ret = Completion.threw
          ∧ beginTracks r.effects = []
          ∧ sessionsCreated r.effects = 0
          ∧ sessionsDestroyed r.effects = 0)
        ∨ (t.recording_ = true
          ∧ (env.trace_bytes = [] ∨ resolveOutputPath t.current_output_path_ env ≠ none)
          ∧ r.tracer.recording_ = false
          ∧ r.tracer.tracing_session_ = none
          ∧ r.tracer.next_section_track_id_ = t.next_section_track_id_
          ∧ (r.ret = Completion.returned false →
              r.tracer.active_section_track_ids_ = t.active_section_track_ids_)
          ∧ (r.ret = Completion.returned true → r.tracer.active_section_track_ids_ = [])
          ∧ (r.ret = Completion.returned true ∨ r.ret = Completion.returned false)
          ∧ (r.ret = Completion.returned true ↔
              (env.trace_bytes ≠ [] ∧ env.output_is_open = true))
          ∧ beginTracks r.effects = []
          ∧ sessionsCreated r.effects = 0
          ∧ sessionsDestroyed r.effects = 1)) := by
  cases hr : t.recording_
  · exact ⟨_, by simp [StopRecording, hr]; rfl, Or.inl ⟨rfl, rfl, rfl, rfl⟩⟩
  · obtain ⟨s, hs⟩ := Option.isSome_iff_exists.1 (hsession hr)
    by_cases hb : env.trace_bytes = []
    · simp [StopRecording, hr, hs, sdkBuild, hb, beginTracks, sessionsCreated,
        sessionsDestroyed, Effect.beginTrack?, Effect.isNewTrace, Effect.isSessionDestroyed]
    · cases hpath : resolveOutputPath t.current_output_path_ env with
      | none =>
        simp [StopRecording, hr, hs, sdkBuild, hb, hpath, beginTracks, sessionsCreated,
          sessionsDestroyed, Effect.beginTrack?, Effect.isNewTrace, Effect.isSessionDestroyed]
      | some path =>
        by_cases ho : env.output_is_open = true <;>
          simp [StopRecording, hr, hs, sdkBuild, hb, ho, hpath, beginTracks, sessionsCreated,
            sessionsDestroyed, Effect.beginTrack?, Effect.isNewTrace,
            Effect.isSessionDestroyed]

theorem advance_start (b : Build) (s : RunState) (th : Nat) (env : Env)
    (config : RecordingConfig) (error : Option String) :
    advance b s { thread := th, env := env, call := Call.startRecording config error } =
      some { world := { s.world with tracer := (StartRecording b s.world.tracer config error env).tracer }
             log := s.log ++ (StartRecording b s.world.tracer config error env).effects
             ids_since_counter_reset :=
               (if (StartRecording b s.world.tracer config error env).ret
                    = Completion.returned true then []
                else s.ids_since_counter_reset) ++
                 beginTracks (StartRecording b s.world.tracer config error env).effects } := by
  simp only [advance, step]
  cases h : (StartRecording b s.world.tracer config error env).ret with
  | threw => simp [Reply.startSucceeded]
  | returned v => cases v <;> simp [Reply.startSucceeded]

theorem advance_stop (b : Build) (s : RunState) (th : Nat) (env : Env)
    (output_path error : Option String) (r : StopOut)
    (h : StopRecording b s.world.tracer output_path error env = some r) :
    advance b s { thread := th, env := env, call := Call.stopRecording output_path error } =
      some { world := { s.world with tracer := r.tracer }
             log := s.log ++ r.effects
             ids_since_counter_reset := s.ids_since_counter_reset ++ beginTracks r.effects } := by
  simp [advance, step, h, Reply.startSucceeded]

theorem advance_begin (b : Build) (s : RunState) (th : Nat) (env : Env)
    (c n a : String) :
    advance b s { thread := th, env := env, call := Call.beginSection c n a } =
      some { world := s.world.afterEmit th
               (BeginSection b s.world.tracer (s.world.g_signpost_stack th) c n a env)
             log := s.log ++
               (BeginSection b s.world.tracer (s.world.g_signpost_stack th) c n a env).effects
             ids_since_counter_reset := s.ids_since_counter_reset ++ beginTracks
               (BeginSection b s.world.tracer (s.world.g_signpost_stack th) c n a env).effects } :=
  rfl

theorem advance_end (b : Build) (s : RunState) (th : Nat) (env : Env) :
    advance b s { thread := th, env := env, call := Call.endSection } =
      some { world := s.world.afterEmit th
               (EndSection b s.world.tracer (s.world.g_signpost_stack th))
             log := s.log ++
               (EndSection b s.world.tracer (s.world.g_signpost_stack th)).effects
             ids_since_counter_reset := s.ids_since_counter_reset ++ beginTracks
               (EndSection b s.world.tracer (s.world.g_signpost_stack th)).effects } :=
  rfl

theorem advance_instant (b : Build) (s : RunState) (th : Nat) (env : Env)
    (c n a : String) :
    advance b s { thread := th, env := env, call := Call.instantEvent c n a } =
      some { world := s.world.afterEmit th
               (InstantEvent b s.world.tracer (s.world.g_signpost_stack th) c n a)
             log := s.log ++
               (InstantEvent b s.world.tracer (s.world.g_signpost_stack th) c n a).effects
             ids_since_counter_reset := s.ids_since_counter_reset ++ beginTracks
               (InstantEvent b s.world.tracer (s.world.g_signpost_stack th) c n a).effects } :=
  rfl

theorem advance_counter (b : Build) (s : RunState) (th : Nat) (env : Env)
    (c n : String) (v : Int) (a : String) :
    advance b s { thread := th, env := env, call := Call.setCounter c n v a } =
      some { world := s.world.afterEmit th
               (SetCounter b s.world.tracer (s.world.g_signpost_stack th) c n v a env)
             log := s.log ++
               (SetCounter b s.world.tracer (s.world.g_signpost_stack th) c n v a env).effects
             ids_since_counter_reset := s.ids_since_counter_reset ++ beginTracks
               (SetCounter b s.world.tracer (s.world.g_signpost_stack th) c n v a env).effects } :=
  rfl

theorem sessionsCreated_append (l1 l2 : List Effect) :
    sessionsCreated (l1 ++ l2) = sessionsCreated l1 + sessionsCreated l2 := by
  simp [sessionsCreated]

theorem sessionsDestroyed_append (l1 l2 : List Effect) :
    sessionsDestroyed (l1 ++ l2) = sessionsDestroyed l1 + sessionsDestroyed l2 := by
  simp [sessionsDestroyed]

theorem advance_sessionInv (p : Platform) (s : RunState) (i : Invocation)
    (h : SessionInv s) :
    ∃ s1, advance (sdkBuild p) s i = some s1 ∧ SessionInv s1 := by
  obtain ⟨himp, hcount⟩ := h
  rcases i with ⟨th, env, c⟩
  cases c with
  | startRecording config error =>
    refine ⟨_, advance_start _ _ _ _ _ _, ?_⟩
    rcases start_cases p s.world.tracer config error env with
      ⟨hr, heq⟩ | ⟨hr, -, h2, -, h4, h5, -⟩
    · rw [heq]
      exact ⟨himp, by simpa using hcount⟩
    · refine ⟨fun _ => h2, ?_⟩
      simp only [sessionsCreated_append, sessionsDestroyed_append, h4, h5, h2, hcount, if_true]
  | stopRecording output_path error =>
    obtain ⟨r, hr, hcases⟩ := stop_cases p s.world.tracer output_path error env himp
    refine ⟨_, advance_stop _ _ _ _ _ _ r hr, ?_⟩
    rcases hcases with ⟨h1, h2, -, h4⟩ | ⟨-, -, -, h2, -, -, h7, h8⟩
      | ⟨h1, -, h2, h3, -, -, -, -, -, -, h8, h9⟩
    · simp only [SessionInv, h2, h4, List.append_nil]
      exact ⟨himp, hcount⟩
    · simp only [SessionInv, h2, sessionsCreated_append, sessionsDestroyed_append, h7, h8,
        Nat.add_zero]
      exact ⟨himp, hcount⟩
    · refine ⟨by simp [h2], ?_⟩
      simp only [sessionsCreated_append, sessionsDestroyed_append, h8, h9, h3, hcount,
        himp h1]
      simp
  | beginSection c n a =>
    refine ⟨_, advance_begin _ _ _ _ _ _ _, ?_⟩
    have hf := begin_sessions (sdkBuild p) s.world.tracer (s.world.g_signpost_stack th) c n a env
    have ht := begin_tracer p s.world.tracer (s.world.g_signpost_stack th) c n a env
    simp only [SessionInv, World.afterEmit, sessionsCreated_append, sessionsDestroyed_append,
      hf.1, hf.2, ht, Nat.add_zero]
    exact ⟨himp, hcount⟩
  | endSection =>
    refine ⟨_, advance_end _ _ _ _, ?_⟩
    have hf := end_beginTracks (sdkBuild p) s.world.tracer (s.world.g_signpost_stack th)
    have ht := end_tracer p s.world.tracer (s.world.g_signpost_stack th)
    simp only [SessionInv, World.afterEmit, sessionsCreated_append, sessionsDestroyed_append,
      hf.2.1, hf.2.2, ht, Nat.add_zero]
    exact ⟨himp, hcount⟩
  | instantEvent c n a =>
    refine ⟨_, advance_instant _ _ _ _ _ _ _, ?_⟩
    have hf := emit_frame (sdkBuild p) s.world.tracer (s.world.g_signpost_stack th) c n a 0 env
    simp only [SessionInv, World.afterEmit, sessionsCreated_append, sessionsDestroyed_append,
      hf.1, hf.2.2.1, hf.2.2.2.1, Nat.add_zero]
    exact ⟨himp, hcount⟩
  | setCounter c n v a =>
    refine ⟨_, advance_counter _ _ _ _ _ _ _ _, ?_⟩
    have hf := emit_frame (sdkBuild p) s.world.tracer (s.world.g_signpost_stack th) c n a v env
    simp only [SessionInv, World.afterEmit, sessionsCreated_append, sessionsDestroyed_append,
      hf.2.2.2.2.1, hf.2.2.2.2.2.2.1, hf.2.2.2.2.2.2.2, Nat.add_zero]
    exact ⟨himp, hcount⟩

theorem advance_trackInv (p : Platform) (s s1 : RunState) (i : Invocation)
    (hadv : advance (sdkBuild p) s i = some s1) (h : TrackInv s) : TrackInv s1 := by
  obtain ⟨hlt, hinv⟩ := h
  rcases i with ⟨th, env, c⟩
  cases c with
  | startRecording config error =>
    rw [advance_start] at hadv
    cases hadv
    rcases start_cases p s.world.tracer config error env with
      ⟨hr, heq⟩ | ⟨hr, -, -, h3, -, -, ⟨path, -, k1, -, k3, k4, -⟩ | ⟨-, k1, -, k3, k4, -⟩⟩
    · rw [heq]
      simp only [TrackInv, beginTracks, List.filterMap_nil, List.append_nil, reduceCtorEq,
        if_false]
      exact ⟨hlt, hinv⟩
    · simp only [TrackInv, k1, k3, k4, h3, if_true, List.append_nil, List.length_nil]
      simp [UINT64_MOD]
    · simp only [TrackInv, k1, k3, k4, h3, reduceCtorEq, if_false, List.append_nil]
      exact ⟨hlt, hinv⟩
  | stopRecording output_path error =>
    cases hstop : StopRecording (sdkBuild p) s.world.tracer output_path error env with
    | none => simp [advance, step, hstop] at hadv
    | some r =>
      rw [advance_stop _ _ _ _ _ _ r hstop] at hadv
      cases hadv
      have hsession : s.world.tracer.recording_ = true →
          s.world.tracer.tracing_session_.isSome = true := by
        intro hr
        cases hs : s.world.tracer.tracing_session_ with
        | none => simp [StopRecording, hr, hs, sdkBuild] at hstop
        | some x => rfl
      obtain ⟨r2, hr2, hcases⟩ := stop_cases p s.world.tracer output_path error env hsession
      rw [hstop] at hr2
      cases hr2
      rcases hcases with ⟨-, h2, -, h4⟩ | ⟨-, -, -, h2, -, h4, -, -⟩
        | ⟨-, -, -, -, h4, h5, h6, hret, -, h8, -, -⟩
      · simp only [TrackInv, h2, h4, beginTracks, List.filterMap_nil, List.append_nil]
        exact ⟨hlt, hinv⟩
      · simp only [TrackInv, h2, h4, List.append_nil]
        exact ⟨hlt, hinv⟩
      · simp only [TrackInv, h4, h8, List.append_nil]
        refine ⟨hlt, fun hlen => ?_⟩
        obtain ⟨k1, k2, k3, k4⟩ := hinv hlen
        rcases hret with hret | hret
        · rw [h6 hret]
          exact ⟨k1, k2, List.Pairwise.nil, fun id hid => by cases hid⟩
        · rw [h5 hret]
          exact ⟨k1, k2, k3, k4⟩
  | beginSection c n a =>
    rw [advance_begin] at hadv
    cases hadv
    have hb := begin_beginTracks p s.world.tracer (s.world.g_signpost_stack th) c n a env
    have ht := begin_tracer p s.world.tracer (s.world.g_signpost_stack th) c n a env
    simp only [TrackInv, World.afterEmit, hb, ht, List.length_append, List.length_singleton]
    refine ⟨Nat.mod_lt _ (by simp [UINT64_MOD]), fun hlen => ?_⟩
    obtain ⟨h1, h2, h3, h4⟩ := hinv (by omega)
    unfold UINT64_MOD at *
    have hnext : s.world.tracer.next_section_track_id_ = s.ids_since_counter_reset.length + 1 := by
      omega
    refine ⟨by omega, ?_, ?_, ?_⟩
    · rw [List.range_succ, List.map_append, ← h2, hnext]
      rfl
    · rw [List.pairwise_append]
      refine ⟨h3, List.pairwise_singleton _ _, ?_⟩
      intro x hx y hy
      rw [List.mem_singleton] at hy
      have := (h4 x hx).2
      omega
    · intro id hid
      rw [List.mem_append, List.mem_singleton] at hid
      rcases hid with hid | hid
      · have := h4 id hid
        omega
      · omega
  | endSection =>
    rw [advance_end] at hadv
    cases hadv
    have hf := end_beginTracks (sdkBuild p) s.world.tracer (s.world.g_signpost_stack th)
    have ht := end_tracer p s.world.tracer (s.world.g_signpost_stack th)
    simp only [TrackInv, World.afterEmit, hf.1, ht, List.append_nil]
    refine ⟨hlt, fun hlen => ?_⟩
    obtain ⟨h1, h2, h3, h4⟩ := hinv hlen
    exact ⟨h1, h2, h3.sublist (List.dropLast_sublist _),
      fun id hid => h4 id (List.dropLast_subset _ hid)⟩
  | instantEvent c n a =>
    rw [advance_instant] at hadv
    cases hadv
    have hf := emit_frame (sdkBuild p) s.world.tracer (s.world.g_signpost_stack th) c n a 0 env
    simp only [TrackInv, World.afterEmit, hf.1, hf.2.1, List.append_nil]
    exact ⟨hlt, hinv⟩
  | setCounter c n v a =>
    rw [advance_counter] at hadv
    cases hadv
    have hf := emit_frame (sdkBuild p) s.world.tracer (s.world.g_signpost_stack th) c n a v env
    simp only [TrackInv, World.afterEmit, hf.2.2.2.2.1, hf.2.2.2.2.2.1, List.append_nil]
    exact ⟨hlt, hinv⟩


theorem run_invariants (p : Platform) (calls : List Invocation) :
    ∀ s : RunState, SessionInv s → TrackInv s →
      ∃ s1, run (sdkBuild p) s calls = some s1 ∧ SessionInv s1 ∧ TrackInv s1 := by
  induction calls with
  | nil => exact fun s h1 h2 => ⟨s, rfl, h1, h2⟩
  | cons i rest ih =>
    intro s h1 h2
    obtain ⟨s1, hs1, h1a⟩ := advance_sessionInv p s i h1
    obtain ⟨s2, hs2, h⟩ := ih s1 h1a (advance_trackInv p s s1 i hs1 h2)
    exact ⟨s2, by simp [run, hs1, hs2], h⟩

theorem initial_invariants : SessionInv RunState.initial ∧ TrackInv RunState.initial := by
  refine ⟨⟨by decide, by decide⟩, by decide, fun _ => ⟨by decide, by decide, by decide, ?_⟩⟩
  intro id hid
  cases hid

theorem run_append (b : Build) (l1 l2 : List Invocation) :
    ∀ s : RunState, run b s (l1 ++ l2) = (run b s l1).bind (fun s1 => run b s1 l2) := by
  induction l1 with
  | nil => intro s; rfl
  | cons i rest ih =>
    intro s
    cases h : advance b s i with
    | none => simp [run, h]
    | some s1 => simp [run, h, ih]

theorem advance_log (b : Build) (s s1 : RunState) (i : Invocation)
    (h : advance b s i = some s1) :
    ∃ effects, s1.log = s.log ++ effects
      ∧ (s1.ids_since_counter_reset = s.ids_since_counter_reset ++ beginTracks effects
        ∨ s1.ids_since_counter_reset = beginTracks effects) := by
  unfold advance at h
  cases hs : step b s.world i with
  | none => simp [hs] at h
  | some o =>
    simp only [hs, Option.some.injEq] at h
    subst h
    refine ⟨o.effects, rfl, ?_⟩
    cases o.reply.startSucceeded
    · exact Or.inl rfl
    · exact Or.inr rfl

theorem beginTracks_append (l1 l2 : List Effect) :
    beginTracks (l1 ++ l2) = beginTracks l1 ++ beginTracks l2 := by
  simp [beginTracks]

theorem run_ids_suffix (b : Build) (calls : List Invocation) :
    ∀ s s1 : RunState, run b s calls = some s1 →
      s.ids_since_counter_reset <:+ beginTracks s.log →
      s1.ids_since_counter_reset <:+ beginTracks s1.log := by
  induction calls with
  | nil =>
    intro s s1 h hs
    cases h
    exact hs
  | cons i rest ih =>
    intro s s1 h hs
    cases ha : advance b s i with
    | none => simp [run, ha] at h
    | some s2 =>
      simp only [run, ha] at h
      refine ih s2 s1 h ?_
      obtain ⟨effects, hlog, hids⟩ := advance_log b s s2 i ha
      rw [hlog, beginTracks_append]
      rcases hids with hids | hids
      · rw [hids]
        obtain ⟨front, hfront⟩ := hs
        exact ⟨front, by rw [← hfront, List.append_assoc]⟩
      · rw [hids]
        exact List.suffix_append _ _

theorem advance_noSdk (p : Platform) (s : RunState) (i : Invocation)
    (hrec : s.world.tracer.recording_ = false) :
    ∃ s1, advance (noSdkBuild p) s i = some s1 ∧ s1.world.tracer = s.world.tracer := by
  rcases i with ⟨th, env, c⟩
  cases c with
  | startRecording config error =>
    exact ⟨_, advance_start _ _ _ _ _ _, by simp [StartRecording, hrec, noSdkBuild]⟩
  | stopRecording output_path error =>
    exact ⟨_, advance_stop _ _ _ _ _ _ _ (by simp [StopRecording, hrec]; rfl), rfl⟩
  | beginSection c n a =>
    exact ⟨_, advance_begin _ _ _ _ _ _ _, by cases p <;> rfl⟩
  | endSection =>
    refine ⟨_, advance_end _ _ _ _, ?_⟩
    cases p <;> simp only [World.afterEmit, EndSection, noSdkBuild] <;> try rfl
    cases (s.world.g_signpost_stack th).getLast? <;> rfl
  | instantEvent c n a =>
    exact ⟨_, advance_instant _ _ _ _ _ _ _, (emit_frame _ _ _ c n a 0 env).1⟩
  | setCounter c n v a =>
    exact ⟨_, advance_counter _ _ _ _ _ _ _ _, (emit_frame _ _ _ c n a v env).2.2.2.2.1⟩

theorem run_noSdk (p : Platform) (calls : List Invocation) :
    ∀ s : RunState, s.world.tracer.recording_ = false →
      ∃ s1, run (noSdkBuild p) s calls = some s1 ∧ s1.world.tracer = s.world.tracer := by
  induction calls with
  | nil => exact fun s _ => ⟨s, rfl, rfl⟩
  | cons i rest ih =>
    intro s hrec
    obtain ⟨s1, h1, ht1⟩ := advance_noSdk p s i hrec
    obtain ⟨s2, h2, ht2⟩ := ih s1 (by rw [ht1]; exact hrec)
    exact ⟨s2, by simp [run, h1, h2], by rw [ht2, ht1]⟩


theorem run_concat (b : Build) (s0 s s2 : RunState) (l : List Invocation) (i : Invocation)
    (h1 : run b s0 l = some s) (h2 : advance b s i = some s2) :
    run b s0 (l ++ [i]) = some s2 := by
  rw [run_append, h1]
  simp [run, h2]

theorem take_succ_cons_count (q : Invocation → Bool) (i : Invocation)
    (rest : List Invocation) (k : Nat) :
    ((i :: rest).take (k + 1)).countP q = (rest.take k).countP q + (if q i then 1 else 0) := by
  rw [List.take_succ_cons, List.countP_cons]

theorem run_sections (p : Platform) (calls : List Invocation) :
    ∀ (s : RunState) (bottom open_ids : List Nat),
      s.world.tracer.active_section_track_ids_ = bottom ++ open_ids →
      (∀ i ∈ calls, i.call.isBegin = true ∨ i.call.isEnd = true) →
      (∀ k, endCount (calls.take k) ≤ beginCount (calls.take k) + open_ids.length) →
      ∃ s1 open_ids1, run (sdkBuild p) s calls = some s1
        ∧ s1.world.tracer.active_section_track_ids_ = bottom ++ open_ids1
        ∧ open_ids1.length + endCount calls = open_ids.length + beginCount calls := by
  induction calls with
  | nil => exact fun s bottom open_ids h _ _ => ⟨s, open_ids, rfl, h, rfl⟩
  | cons i rest ih =>
    intro s bottom open_ids hstack hkind hnest
    have hrest : ∀ j ∈ rest, j.call.isBegin = true ∨ j.call.isEnd = true :=
      fun j hj => hkind j (List.mem_cons_of_mem _ hj)
    have hi := hkind i (List.mem_cons_self _ _)
    rcases i with ⟨th, env, c⟩
    cases c with
    | beginSection c n a =>
      obtain ⟨s2, hadv, hst2⟩ : ∃ s2,
          advance (sdkBuild p) s { thread := th, env := env, call := Call.beginSection c n a }
            = some s2
          ∧ s2.world.tracer.active_section_track_ids_
            = bottom ++ (open_ids ++ [s.world.tracer.next_section_track_id_]) :=
        ⟨_, advance_begin _ _ _ _ _ _ _,
          by simp only [World.afterEmit, begin_tracer, hstack, List.append_assoc]⟩
      obtain ⟨s1, ids1, hrun, hs1, hlen⟩ := ih s2
        bottom (open_ids ++ [s.world.tracer.next_section_track_id_]) hst2 hrest
        (by
          intro k
          have := hnest (k + 1)
          simp only [endCount, beginCount, take_succ_cons_count, Call.isBegin, Call.isEnd,
            List.length_append, List.length_singleton] at this ⊢
          simp at this
          omega)
      refine ⟨s1, ids1, ?_, hs1, ?_⟩
      · simp only [run, hadv]
        exact hrun
      · simp only [endCount, beginCount, List.countP_cons, Call.isBegin, Call.isEnd,
          List.length_append, List.length_singleton] at hlen ⊢
        simp
        omega
    | endSection =>
      have h1 := hnest 1
      simp only [endCount, beginCount, List.take_succ_cons, List.take_zero, List.countP_cons,
        List.countP_nil, Call.isBegin, Call.isEnd] at h1
      simp at h1
      obtain ⟨front, x, hx⟩ : ∃ front x, open_ids = front ++ [x] := by
        rcases List.eq_nil_or_concat open_ids with h | ⟨front, x, h⟩
        · rw [h] at h1; simp at h1
        · exact ⟨front, x, by simpa using h⟩
      obtain ⟨s2, hadv, hst2⟩ : ∃ s2,
          advance (sdkBuild p) s { thread := th, env := env, call := Call.endSection } = some s2
          ∧ s2.world.tracer.active_section_track_ids_ = bottom ++ front :=
        ⟨_, advance_end _ _ _ _, by
          simp only [World.afterEmit, end_tracer, hstack, hx]
          rw [← List.append_assoc, List.dropLast_concat]⟩
      obtain ⟨s1, ids1, hrun, hs1, hlen⟩ := ih s2 bottom front hst2 hrest
        (by
          intro k
          have := hnest (k + 1)
          simp only [endCount, beginCount, take_succ_cons_count, Call.isBegin, Call.isEnd,
            hx, List.length_append, List.length_singleton] at this ⊢
          simp at this
          omega)
      refine ⟨s1, ids1, ?_, hs1, ?_⟩
      · simp only [run, hadv]
        exact hrun
      · simp only [endCount, beginCount, List.countP_cons, Call.isBegin, Call.isEnd, hx,
          List.length_append, List.length_singleton] at hlen ⊢
        simp
        omega
    | startRecording _ _ => simp [Call.isBegin, Call.isEnd] at hi
    | stopRecording _ _ => simp [Call.isBegin, Call.isEnd] at hi
    | instantEvent _ _ _ => simp [Call.isBegin, Call.isEnd] at hi
    | setCounter _ _ _ _ => simp [Call.isBegin, Call.isEnd] at hi

theorem run_pairs (p : Platform) (n : Nat) :
    ∀ s : RunState, s.world.tracer.active_section_track_ids_ = [] →
      s.world.tracer.next_section_track_id_ < UINT64_MOD →
      ∃ s1, run (sdkBuild p) s (beginEndPairs n) = some s1
        ∧ s1.world.tracer.active_section_track_ids_ = []
        ∧ s1.world.tracer.next_section_track_id_
            = (s.world.tracer.next_section_track_id_ + n) % UINT64_MOD
        ∧ s1.ids_since_counter_reset.length = s.ids_since_counter_reset.length + n := by
  induction n with
  | zero =>
    intro s h1 h2
    exact ⟨s, rfl, h1, by simp [Nat.mod_eq_of_lt h2], rfl⟩
  | succ k ih =>
    intro s h1 h2
    obtain ⟨sa, ha, ha1, ha2, ha3⟩ : ∃ sa, advance (sdkBuild p) s beginCall = some sa
        ∧ sa.world.tracer.active_section_track_ids_ = [s.world.tracer.next_section_track_id_]
        ∧ sa.world.tracer.next_section_track_id_
            = (s.world.tracer.next_section_track_id_ + 1) % UINT64_MOD
        ∧ sa.ids_since_counter_reset.length = s.ids_since_counter_reset.length + 1 :=
      ⟨_, advance_begin _ s 0 sampleEnv "" "" "",
        by simp only [World.afterEmit, begin_tracer, h1, List.nil_append],
        by simp only [World.afterEmit, begin_tracer],
        by simp only [begin_beginTracks, List.length_append, List.length_singleton]⟩
    obtain ⟨sb, hb, hb1, hb2, hb3⟩ : ∃ sb, advance (sdkBuild p) sa endCall = some sb
        ∧ sb.world.tracer.active_section_track_ids_ = []
        ∧ sb.world.tracer.next_section_track_id_ = sa.world.tracer.next_section_track_id_
        ∧ sb.ids_since_counter_reset.length = sa.ids_since_counter_reset.length :=
      ⟨_, advance_end _ sa 0 sampleEnv,
        by simp only [World.afterEmit, end_tracer, ha1, List.dropLast_single],
        by simp only [World.afterEmit, end_tracer],
        by simp only [(end_beginTracks _ _ _).1, List.append_nil]⟩
    obtain ⟨s1, hrun, r1, r2, r3⟩ := ih sb hb1 (by
      rw [hb2, ha2]
      exact Nat.mod_lt _ (by simp [UINT64_MOD]))
    refine ⟨s1, ?_, r1, ?_, ?_⟩
    · simp only [beginEndPairs, run, ha, hb]
      exact hrun
    · rw [r2, hb2, ha2]
      unfold UINT64_MOD
      omega
    · rw [r3, hb3, ha3]
      omega

theorem run_pairs_then_begin (p : Platform) (n : Nat) :
    ∃ s, run (sdkBuild p) RunState.initial (beginEndPairs n ++ [beginCall]) = some s
      ∧ s.world.tracer.active_section_track_ids_ = [(1 + n) % UINT64_MOD]
      ∧ s.world.tracer.next_section_track_id_ = ((1 + n) % UINT64_MOD + 1) % UINT64_MOD
      ∧ s.ids_since_counter_reset.length = n + 1 := by
  obtain ⟨s0, hrun, h1, h2, h3⟩ :=
    run_pairs p n RunState.initial rfl (by decide)
  have hnext : s0.world.tracer.next_section_track_id_ = (1 + n) % UINT64_MOD := h2
  have hlen : s0.ids_since_counter_reset.length = n := by
    rw [h3]
    exact Nat.zero_add n
  refine ⟨_, run_concat _ _ _ _ _ _ hrun (advance_begin (sdkBuild p) s0 0 sampleEnv "" "" ""),
    ?_, ?_, ?_⟩
  · simp only [World.afterEmit, begin_tracer, h1, hnext, List.nil_append]
  · simp only [World.afterEmit, begin_tracer, hnext]
  · simp only [begin_beginTracks, List.length_append, List.length_singleton, hlen]

/-! ## The claims -/

/-- C2. In either build: on a `Tracer` whose recording flag is set, `StartRecording` with
any config returns `false`, writes the "already running" text through a non-null `error`,
leaves every field of the `Tracer` as it was and calls nothing outside; on a `Tracer` whose
recording flag is clear, `StopRecording` returns `false`, writes "No active recording
session to stop." through a non-null `error`, leaves `output_path` and every field of the
`Tracer` as they were and calls nothing outside (no file is opened or written). -/
theorem state_conflict_rejected (b : Build) (t_rec t_idle : Tracer) (config : RecordingConfig)
    (start_error stop_output_path stop_error : Option String) (env : Env)
    (hrec : t_rec.recording_ = true) (hidle : t_idle.recording_ = false) :
    StartRecording b t_rec config start_error env =
        { tracer := t_rec, ret := Completion.returned false,
          error := start_error.map
            (fun _ => "A Perfetto recording session is already running."),
          effects := [] }
      ∧ StopRecording b t_idle stop_output_path stop_error env =
        some { tracer := t_idle, ret := Completion.returned false,
               output_path := stop_output_path,
               error := stop_error.map (fun _ => "No active recording session to stop."),
               effects := [] } := by
  constructor
  · simp [StartRecording, hrec, assignIfNonNull, alreadyRunningError]
  · simp [StopRecording, hidle, assignIfNonNull, noActiveSessionError]

/-- C2 on a `Tracer` that records to `a.trace` with one open section, and on the freshly
constructed `Tracer`. -/
theorem state_conflict_rejected_witness :
    recordingTracer.recording_ = true
      ∧ Tracer.initial.recording_ = false
      ∧ StartRecording (sdkBuild Platform.ios) recordingTracer { file_path := "b.trace" }
            (some "") sampleEnv =
          { tracer := recordingTracer, ret := Completion.returned false,
            error := (some "").map
              (fun _ => "A Perfetto recording session is already running."),
            effects := [] }
      ∧ StopRecording (sdkBuild Platform.ios) Tracer.initial (some "") (some "") sampleEnv =
          some { tracer := Tracer.initial, ret := Completion.returned false,
                 output_path := some "",
                 error := (some "").map (fun _ => "No active recording session to stop."),
                 effects := [] } :=
  ⟨rfl, rfl,
    state_conflict_rejected (sdkBuild Platform.ios) recordingTracer Tracer.initial
      { file_path := "b.trace" } (some "") (some "") (some "") sampleEnv rfl rfl⟩

/-- C3. In a build with the SDK, a sequence of `BeginSection` / `EndSection` calls in which
no initial segment has more ends than begins and which has as many begins as ends runs to
completion from any state and leaves `active_section_track_ids_` equal to what it was
before; in particular an empty track stack is empty again afterwards. -/
theorem balanced_sections_restore_track_stack (p : Platform) (s : RunState)
    (calls : List Invocation)
    (hkind : ∀ i ∈ calls, i.call.isBegin = true ∨ i.call.isEnd = true)
    (hnest : ∀ k, endCount (calls.take k) ≤ beginCount (calls.take k))
    (hbal : beginCount calls = endCount calls) :
    ∃ s1, run (sdkBuild p) s calls = some s1
      ∧ s1.world.tracer.active_section_track_ids_ = s.world.tracer.active_section_track_ids_
      ∧ (s.world.tracer.active_section_track_ids_ = [] →
          s1.world.tracer.active_section_track_ids_ = []) := by
  obtain ⟨s1, ids1, hrun, hs1, hlen⟩ :=
    run_sections p calls s s.world.tracer.active_section_track_ids_ [] (by simp) hkind
      (by simpa using hnest)
  have hnil : ids1 = [] := by
    apply List.eq_nil_of_length_eq_zero
    simp only [List.length_nil] at hlen
    omega
  rw [hnil, List.append_nil] at hs1
  exact ⟨s1, hrun, hs1, fun h => by rw [hs1, h]⟩

/-- C3 on `Begin, Begin, End, Begin, End, End` from the freshly constructed `Tracer`. -/
theorem balanced_sections_restore_track_stack_witness :
    (∀ i ∈ [beginCall, beginCall, endCall, beginCall, endCall, endCall],
        i.call.isBegin = true ∨ i.call.isEnd = true)
      ∧ (∀ k, endCount ([beginCall, beginCall, endCall, beginCall, endCall, endCall].take k)
          ≤ beginCount ([beginCall, beginCall, endCall, beginCall, endCall, endCall].take k))
      ∧ beginCount [beginCall, beginCall, endCall, beginCall, endCall, endCall]
          = endCount [beginCall, beginCall, endCall, beginCall, endCall, endCall]
      ∧ ∃ s1, run (sdkBuild Platform.ios) RunState.initial
            [beginCall, beginCall, endCall, beginCall, endCall, endCall] = some s1
        ∧ s1.world.tracer.active_section_track_ids_
            = RunState.initial.world.tracer.active_section_track_ids_
        ∧ (RunState.initial.world.tracer.active_section_track_ids_ = [] →
            s1.world.tracer.active_section_track_ids_ = []) := by
  have hkind : ∀ i ∈ [beginCall, beginCall, endCall, beginCall, endCall, endCall],
      i.call.isBegin = true ∨ i.call.isEnd = true := by decide
  have hnest : ∀ k, endCount ([beginCall, beginCall, endCall, beginCall, endCall, endCall].take k)
      ≤ beginCount ([beginCall, beginCall, endCall, beginCall, endCall, endCall].take k) := by
    intro k
    rcases Nat.lt_or_ge k 6 with h | h
    · interval_cases k <;> decide
    · rw [List.take_of_length_le (by simpa using h)]
      decide
  exact ⟨hkind, hnest, by decide,
    balanced_sections_restore_track_stack Platform.ios RunState.initial _ hkind hnest
      (by decide)⟩


/-- C4, as stated, fails: after `2 ^ 64 - 1` pairs `BeginSection`, `EndSection` from the
freshly constructed `Tracer` the counter has wrapped to `0` and the track stack is empty;
one more `BeginSection` makes the track stack `[0]`; `EndSection` then pops that entry and
calls no `TRACE_EVENT_END`. -/
theorem end_section_silent_after_wrap :
    ∃ s, run (sdkBuild Platform.other) RunState.initial
          (beginEndPairs (2 ^ 64 - 1) ++ [beginCall]) = some s
      ∧ s.world.tracer.active_section_track_ids_ = [0]
      ∧ (EndSection (sdkBuild Platform.other) s.world.tracer []).tracer.active_section_track_ids_
          = []
      ∧ endTracks (EndSection (sdkBuild Platform.other) s.world.tracer []).effects = [] := by
  obtain ⟨s, hrun, hstack, -, -⟩ := run_pairs_then_begin Platform.other (2 ^ 64 - 1)
  have hzero : (1 + (2 ^ 64 - 1)) % UINT64_MOD = 0 := by
    unfold UINT64_MOD; norm_num
  rw [hzero] at hstack
  refine ⟨s, hrun, hstack, ?_, ?_⟩
  · rw [end_tracer, hstack]
    rfl
  · rw [end_endTracks, hstack]
    rfl

/-- C4, amended. In a build with the SDK, in every state reached from the freshly
constructed `Tracer` by public calls: `EndSection` on an empty track stack leaves the
`Tracer` as it was and calls no `TRACE_EVENT_END`; `EndSection` on a track stack
`rest ++ [id]` leaves `rest`, changes no other field, and calls `TRACE_EVENT_END` once, on
track `id`, when `id` is not `0`, and not at all when `id` is `0`; and `id` is not `0` when
fewer than `2 ^ 64` identifiers were allocated since the counter was last assigned `1`. -/
theorem end_section_pops_top (p : Platform) (calls : List Invocation) (g : List Nat) :
    ∃ s, run (sdkBuild p) RunState.initial calls = some s
      ∧ (s.world.tracer.active_section_track_ids_ = [] →
          (EndSection (sdkBuild p) s.world.tracer g).tracer = s.world.tracer
          ∧ endTracks (EndSection (sdkBuild p) s.world.tracer g).effects = [])
      ∧ ∀ (rest : List Nat) (id : Nat),
          s.world.tracer.active_section_track_ids_ = rest ++ [id] →
            (EndSection (sdkBuild p) s.world.tracer g).tracer
                = { s.world.tracer with active_section_track_ids_ := rest }
            ∧ endTracks (EndSection (sdkBuild p) s.world.tracer g).effects
                = (if id = 0 then [] else [id])
            ∧ (s.ids_since_counter_reset.length < 2 ^ 64 →
                id ≠ 0
                ∧ endTracks (EndSection (sdkBuild p) s.world.tracer g).effects = [id]) := by
  obtain ⟨s, hrun, -, -, hinv⟩ :=
    run_invariants p calls RunState.initial initial_invariants.1 initial_invariants.2
  refine ⟨s, hrun, fun hnil => ?_, fun rest id hstack => ?_⟩
  · refine ⟨?_, ?_⟩
    · rw [end_tracer, hnil]
      simp only [List.dropLast_nil]
      rw [← hnil]
    · rw [end_endTracks, hnil]
      rfl
  · have hends : endTracks (EndSection (sdkBuild p) s.world.tracer g).effects
        = (if id = 0 then [] else [id]) := by
      rw [end_endTracks, hstack, List.getLast?_concat]
    refine ⟨?_, hends, fun hlen => ?_⟩
    · rw [end_tracer, hstack, List.dropLast_concat]
    · have hid := ((hinv hlen).2.2.2 id (by rw [hstack]; simp)).1
      have hne : id ≠ 0 := by omega
      exact ⟨hne, by rw [hends, if_neg hne]⟩

/-- C4, amended, after `Start, Begin, Begin` on Android: the stack is `[1, 2]`, fewer than
`2 ^ 64` identifiers were allocated, and `EndSection` ends track `2` and leaves `[1]`. -/
theorem end_section_pops_top_witness :
    ∃ s, run (sdkBuild Platform.android) RunState.initial [startCall, beginCall, beginCall]
          = some s
      ∧ s.world.tracer.active_section_track_ids_ = [1] ++ [2]
      ∧ s.ids_since_counter_reset.length < 2 ^ 64
      ∧ (EndSection (sdkBuild Platform.android) s.world.tracer []).tracer
          = { s.world.tracer with active_section_track_ids_ := [1] }
      ∧ endTracks (EndSection (sdkBuild Platform.android) s.world.tracer []).effects = [2] := by
  obtain ⟨s, hrun, -, hpop⟩ :=
    end_section_pops_top Platform.android [startCall, beginCall, beginCall] []
  have hc : (run (sdkBuild Platform.android) RunState.initial
      [startCall, beginCall, beginCall]).map
        (fun s => (s.world.tracer.active_section_track_ids_, s.ids_since_counter_reset.length))
      = some ([1, 2], 2) := by decide
  rw [hrun] at hc
  simp only [Option.map_some', Option.some.injEq, Prod.mk.injEq] at hc
  have hstack : s.world.tracer.active_section_track_ids_ = [1] ++ [2] := hc.1
  have hlen : s.ids_since_counter_reset.length < 2 ^ 64 := by rw [hc.2]; norm_num
  obtain ⟨h1, -, h3⟩ := hpop [1] 2 hstack
  exact ⟨s, hrun, hstack, hlen, h1, (h3 hlen).2⟩

/-- C5, as stated, fails: in `Start, Begin, Stop, Start, Begin` the two `BeginSection`
calls are both given track identifier `1`. -/
theorem track_ids_reused_after_start :
    (run (sdkBuild Platform.other) RunState.initial
        [startCall, beginCall, stopCall, startCall, beginCall]).map
          (fun s => beginTracks s.log) = some [1, 1]
      ∧ ¬ List.Pairwise (fun a c : Nat => a < c) [1, 1]
      ∧ ¬ List.Nodup [1, 1] := by
  refine ⟨by decide, by decide, by decide⟩

/-- C5, amended. In a build with the SDK, after every sequence of public calls from the
freshly constructed `Tracer`, the identifiers allocated by `BeginSection` since the counter
was last assigned `1` (by the constructor or by the latest `StartRecording` that returned
`true`) are the last identifiers handed to `TRACE_EVENT_BEGIN`, and while there are fewer
than `2 ^ 64` of them they are `1, 2, 3, ...` in call order: strictly increasing and
pairwise distinct. -/
theorem track_ids_increase_between_resets (p : Platform) (calls : List Invocation) :
    ∃ s, run (sdkBuild p) RunState.initial calls = some s
      ∧ s.ids_since_counter_reset <:+ beginTracks s.log
      ∧ (s.ids_since_counter_reset.length < 2 ^ 64 →
          s.ids_since_counter_reset
              = (List.range s.ids_since_counter_reset.length).map (fun k => k + 1)
          ∧ s.ids_since_counter_reset.Pairwise (fun a c => a < c)
          ∧ s.ids_since_counter_reset.Nodup) := by
  obtain ⟨s, hrun, -, -, hinv⟩ :=
    run_invariants p calls RunState.initial initial_invariants.1 initial_invariants.2
  refine ⟨s, hrun, run_ids_suffix _ calls _ _ hrun (List.suffix_refl _), fun hlen => ?_⟩
  have hids := (hinv hlen).2.1
  have hpair : s.ids_since_counter_reset.Pairwise (fun a c => a < c) := by
    rw [hids, List.pairwise_map]
    exact (List.pairwise_lt_range _).imp (fun h => Nat.succ_lt_succ h)
  exact ⟨hids, hpair, hpair.imp (fun h => Nat.ne_of_lt h)⟩

/-- C5, amended, on `Begin, Start, Begin, Begin`: the identifiers since the counter was
last assigned `1` are `[1, 2]`. -/
theorem track_ids_increase_between_resets_witness :
    ∃ s, run (sdkBuild Platform.ios) RunState.initial
          [beginCall, startCall, beginCall, beginCall] = some s
      ∧ beginTracks s.log = [1, 1, 2]
      ∧ s.ids_since_counter_reset = [1, 2]
      ∧ s.ids_since_counter_reset.length < 2 ^ 64
      ∧ s.ids_since_counter_reset.Pairwise (fun a c => a < c)
      ∧ s.ids_since_counter_reset.Nodup := by
  obtain ⟨s, hrun, -, hinc⟩ :=
    track_ids_increase_between_resets Platform.ios [beginCall, startCall, beginCall, beginCall]
  have hc : (run (sdkBuild Platform.ios) RunState.initial
      [beginCall, startCall, beginCall, beginCall]).map
        (fun s => (beginTracks s.log, s.ids_since_counter_reset)) = some ([1, 1, 2], [1, 2]) := by
    decide
  rw [hrun] at hc
  simp only [Option.map_some', Option.some.injEq, Prod.mk.injEq] at hc
  have hlen : s.ids_since_counter_reset.length < 2 ^ 64 := by rw [hc.2]; norm_num
  exact ⟨s, hrun, hc.1, hc.2, hlen, (hinc hlen).2⟩

/-- C6, as stated, fails: `recordingTracer` is the state after `Start, Begin`, its track
stack is `[1]`; a `StopRecording` that writes the payload returns `true` and leaves the
track stack empty, and the `EndSection` of the open section then ends no track. -/
theorem successful_stop_clears_track_stack :
    (run (sdkBuild Platform.other) RunState.initial [startCall, beginCall]).map
        (fun s => s.world.tracer) = some recordingTracer
      ∧ recordingTracer.active_section_track_ids_ = [1]
      ∧ (StopRecording (sdkBuild Platform.other) recordingTracer (some "") (some "")
          sampleEnv).map (fun r => (r.ret, r.tracer.active_section_track_ids_))
          = some (Completion.returned true, [])
      ∧ (StopRecording (sdkBuild Platform.other) recordingTracer (some "") (some "")
          sampleEnv).map
            (fun r => endTracks (EndSection (sdkBuild Platform.other) r.tracer []).effects)
          = some [] := by
  refine ⟨by decide, by decide, by decide, by decide⟩

/-- C6, amended. In either build, on every `Tracer` state on which the call is defined (a
set recording flag comes with a held session), `StopRecording` completes; when it returns
`false` (no recording, empty payload, output file not opened, or no SDK) or is left by the
exception of the directory lookup, the track stack is what it was before the call; when it
returns `true` (SDK present, recording, non-empty payload, path resolved, file opened) the
track stack is empty. -/
theorem stop_track_stack (b : Build) (t : Tracer) (output_path error : Option String)
    (env : Env)
    (hsession : t.recording_ = true → b.RN_PERFETTO_WITH_SDK = true →
      t.tracing_session_.isSome = true) :
    ∃ r, StopRecording b t output_path error env = some r
      ∧ (r.ret = Completion.returned false →
          r.tracer.active_section_track_ids_ = t.active_section_track_ids_)
      ∧ (r.ret = Completion.threw →
          r.tracer.active_section_track_ids_ = t.active_section_track_ids_)
      ∧ (r.ret = Completion.returned true → r.tracer.active_section_track_ids_ = [])
      ∧ (r.ret = Completion.returned true ↔
          (b.RN_PERFETTO_WITH_SDK = true ∧ t.recording_ = true ∧ env.trace_bytes ≠ []
            ∧ env.output_is_open = true
            ∧ ¬ (t.current_output_path_ = "" ∧ env.base_path = none)))
      ∧ (r.ret = Completion.threw ↔
          (b.RN_PERFETTO_WITH_SDK = true ∧ t.recording_ = true ∧ env.trace_bytes ≠ []
            ∧ t.current_output_path_ = "" ∧ env.base_path = none)) := by
  rcases b with ⟨sdk, p⟩
  cases sdk with
  | false =>
    cases hr : t.recording_ <;> simp [StopRecording, hr]
  | true =>
    obtain ⟨r, hr, hcases⟩ :=
      stop_cases p t output_path error env (fun h => hsession h rfl)
    refine ⟨r, hr, ?_⟩
    rcases hcases with ⟨h1, h2, h3, -⟩ | ⟨h1, hb, hpath, h2, hret, -⟩
      | ⟨h1, hcond, -, -, -, h5, h6, hor, hiff, -⟩
    · refine ⟨fun _ => by rw [h2], fun _ => by rw [h2], fun h => ?_, ?_, ?_⟩
      · rw [h3] at h; cases h
      · simp [h1, h3]
      · simp [h1, h3]
    · have hnone := (resolveOutputPath_eq_none _ _).1 hpath
      refine ⟨fun _ => by rw [h2], fun _ => by rw [h2], fun h => ?_, ?_, ?_⟩
      · rw [hret] at h; cases h
      · simp [hret, hnone]
      · simp [hret, h1, hb, hnone]
    · have hnot : ¬ (env.trace_bytes ≠ [] ∧ t.current_output_path_ = "" ∧ env.base_path = none) := by
        rintro ⟨k1, k2⟩
        rcases hcond with hc | hc
        · exact k1 hc
        · exact hc ((resolveOutputPath_eq_none _ _).2 k2)
      have hne : r.ret ≠ Completion.threw := by
        rcases hor with h | h <;> rw [h] <;> intro k <;> cases k
      refine ⟨h5, fun h => absurd h hne, h6, ?_, ?_⟩
      · rw [hiff]
        constructor
        · intro h
          exact ⟨rfl, h1, h.1, h.2, fun k => hnot ⟨h.1, k⟩⟩
        · intro h
          exact ⟨h.2.2.1, h.2.2.2.1⟩
      · constructor
        · intro h; exact absurd h hne
        · intro h; exact absurd ⟨h.2.2.1, h.2.2.2⟩ hnot

/-- C6, amended, on `recordingTracer` with an empty payload: the stop returns `false` and
the track stack is still `[1]`. -/
theorem stop_track_stack_witness :
    (recordingTracer.recording_ = true → (sdkBuild Platform.android).RN_PERFETTO_WITH_SDK = true →
        recordingTracer.tracing_session_.isSome = true)
      ∧ ∃ r, StopRecording (sdkBuild Platform.android) recordingTracer none (some "")
            emptyPayloadEnv = some r
        ∧ r.ret = Completion.returned false
        ∧ r.tracer.active_section_track_ids_ = [1] := by
  obtain ⟨r, hr, hkeep, -⟩ :=
    stop_track_stack (sdkBuild Platform.android) recordingTracer none (some "") emptyPayloadEnv
      (fun _ _ => rfl)
  have hc : (StopRecording (sdkBuild Platform.android) recordingTracer none (some "")
      emptyPayloadEnv).map (fun r => r.ret) = some (Completion.returned false) := by decide
  rw [hr] at hc
  simp only [Option.map_some', Option.some.injEq] at hc
  exact ⟨fun _ _ => rfl, r, hr, hc, hkeep hc⟩

/-- C7. In a build without the SDK, every sequence of public calls from the freshly
constructed `Tracer` runs to completion and leaves the `Tracer` as constructed, so the
recording flag is `false`; `StartRecording` with any config then returns `false`, writes
the "Perfetto SDK is not bundled ..." text (which is not the "already running" text)
through a non-null `error`, leaves every field of the `Tracer` as it was and calls nothing
outside. -/
theorem start_without_sdk_rejected (p : Platform) (calls : List Invocation)
    (config : RecordingConfig) (error : Option String) (env : Env) :
    ∃ s, run (noSdkBuild p) RunState.initial calls = some s
      ∧ IsPerfettoSdkAvailable (noSdkBuild p) = false
      ∧ s.world.tracer = Tracer.initial
      ∧ s.world.tracer.recording_ = false
      ∧ StartRecording (noSdkBuild p) s.world.tracer config error env =
          { tracer := s.world.tracer, ret := Completion.returned false,
            error := error.map (fun _ =>
              "Perfetto SDK is not bundled. Add sdk/perfetto.h and sdk/perfetto.cc " ++
              "under cpp/third_party/perfetto/ to enable recording."),
            effects := [] }
      ∧ "Perfetto SDK is not bundled. Add sdk/perfetto.h and sdk/perfetto.cc " ++
          "under cpp/third_party/perfetto/ to enable recording."
          ≠ "A Perfetto recording session is already running." := by
  obtain ⟨s, hrun, ht⟩ := run_noSdk p calls RunState.initial rfl
  have ht1 : s.world.tracer = Tracer.initial := ht
  refine ⟨s, hrun, rfl, ht1, by rw [ht1]; rfl, ?_, by decide⟩
  rw [ht1]
  simp [StartRecording, Tracer.initial, noSdkBuild, assignIfNonNull, sdkNotBundledError]

/-- C8. For all strings, `buildEventName` returns the category (or `react-native` when it is
empty), a colon, the name (or `unnamed_event` when it is empty), and then nothing when
`args_json` is empty and `|args=` followed by `args_json` otherwise; the two examples of
the specification evaluate as stated. -/
theorem buildEventName_spec (category name args_json : String) :
    buildEventName category name args_json =
        (if category = "" then "react-native" else category) ++ ":" ++
        (if name = "" then "unnamed_event" else name) ++
        (if args_json = "" then "" else "|args=" ++ args_json)
      ∧ buildEventName "" "" "" = "react-native:unnamed_event"
      ∧ buildEventName "net" "fetch" "\x7b\"id\":1\x7d" = "net:fetch|args=\x7b\"id\":1\x7d" := by
  refine ⟨?_, by decide, by decide⟩
  unfold buildEventName
  simp only [sanitizeEventName_eq]
  by_cases h : args_json = ""
  · subst h
    simp [String.isEmpty]
  · have : args_json.isEmpty = false := by
      cases hv : args_json.isEmpty
      · rfl
      · exact absurd ((String.isEmpty_iff args_json).1 hv) h
    simp [this, h]

/-- C9, at the failing input: in a build with the SDK, `StartRecording` on the freshly
constructed `Tracer` with the default config (empty `file_path`), while
`std::filesystem::temp_directory_path()` throws, initialises Perfetto, creates the session,
stores it in `tracing_session_`, sets it up and starts it, and is then left by the exception
before `recording_ = true`: in the state reached the session handle is held and the
recording flag is `false`. -/
theorem start_exception_leaves_session_without_flag :
    (StartRecording (sdkBuild Platform.android) Tracer.initial {} (some "")
        noDirectoryEnv).ret = Completion.threw
      ∧ (StartRecording (sdkBuild Platform.android) Tracer.initial {} (some "")
          noDirectoryEnv).effects
          = [Effect.perfettoTracingInit 3, Effect.trackEventRegister, Effect.newTrace 1,
             Effect.sessionSetup (makeTraceConfig {}), Effect.startBlocking]
      ∧ (run (sdkBuild Platform.android) RunState.initial [startDefaultPathCall]).map
          (fun s => (s.world.tracer.recording_, s.world.tracer.tracing_session_.isSome))
          = some (false, true)
      ∧ ¬ (∀ s, run (sdkBuild Platform.android) RunState.initial [startDefaultPathCall] = some s →
            (s.world.tracer.recording_ = true ↔ s.world.tracer.tracing_session_.isSome = true)) := by
  have hc : (run (sdkBuild Platform.android) RunState.initial [startDefaultPathCall]).map
      (fun s => (s.world.tracer.recording_, s.world.tracer.tracing_session_.isSome))
      = some (false, true) := by decide
  refine ⟨by decide, by decide, hc, fun h => ?_⟩
  cases hrun : run (sdkBuild Platform.android) RunState.initial [startDefaultPathCall] with
  | none => rw [hrun] at hc; cases hc
  | some s =>
    rw [hrun] at hc
    simp only [Option.map_some', Option.some.injEq, Prod.mk.injEq] at hc
    have := (h s hrun).2 hc.2
    rw [hc.1] at this
    cases this

/-- C10, as stated, fails: after `2 ^ 64 - 2` pairs `BeginSection`, `EndSection` and one
more `BeginSection` from the freshly constructed `Tracer`, `2 ^ 64 - 1` identifiers were
allocated since the counter was assigned `1`, the track stack is `[2 ^ 64 - 1]`, and the
next identifier to be allocated is `0`. -/
theorem top_track_not_below_wrapped_counter :
    ∃ s, run (sdkBuild Platform.other) RunState.initial
          (beginEndPairs (2 ^ 64 - 2) ++ [beginCall]) = some s
      ∧ s.ids_since_counter_reset.length < 2 ^ 64
      ∧ s.world.tracer.active_section_track_ids_ = [2 ^ 64 - 1]
      ∧ s.world.tracer.next_section_track_id_ = 0
      ∧ ¬ ∀ id ∈ s.world.tracer.active_section_track_ids_,
            id < s.world.tracer.next_section_track_id_ := by
  obtain ⟨s, hrun, hstack, hnext, hlen⟩ := run_pairs_then_begin Platform.other (2 ^ 64 - 2)
  have htop : (1 + (2 ^ 64 - 2)) % UINT64_MOD = 2 ^ 64 - 1 := by
    unfold UINT64_MOD; norm_num
  have hzero : (2 ^ 64 - 1 + 1) % UINT64_MOD = 0 := by
    unfold UINT64_MOD; norm_num
  rw [htop] at hstack hnext
  rw [hzero] at hnext
  refine ⟨s, hrun, by rw [hlen]; norm_num, hstack, hnext, fun h => ?_⟩
  have := h (2 ^ 64 - 1) (by rw [hstack]; exact List.mem_singleton.2 rfl)
  rw [hnext] at this
  exact Nat.not_lt_zero _ this

/-- C10, amended. In a build with the SDK, in every state reached from the freshly
constructed `Tracer` by public calls: when fewer than `2 ^ 64` identifiers were allocated
since the counter was last assigned `1`, the track stack is strictly increasing from
bottom to top, every identifier on it is at least `1`, `0` is not on it, and its entries
are pairwise distinct; when fewer than `2 ^ 64 - 1` were allocated, every identifier on it
is also smaller than `next_section_track_id_`. -/
theorem track_stack_increasing (p : Platform) (calls : List Invocation) :
    ∃ s, run (sdkBuild p) RunState.initial calls = some s
      ∧ (s.ids_since_counter_reset.length < 2 ^ 64 →
          s.world.tracer.active_section_track_ids_.Pairwise (fun a c => a < c)
          ∧ (∀ id ∈ s.world.tracer.active_section_track_ids_, 1 ≤ id)
          ∧ 0 ∉ s.world.tracer.active_section_track_ids_
          ∧ s.world.tracer.active_section_track_ids_.Nodup)
      ∧ (s.ids_since_counter_reset.length < 2 ^ 64 - 1 →
          ∀ id ∈ s.world.tracer.active_section_track_ids_,
            id < s.world.tracer.next_section_track_id_) := by
  obtain ⟨s, hrun, -, -, hinv⟩ :=
    run_invariants p calls RunState.initial initial_invariants.1 initial_invariants.2
  unfold UINT64_MOD at hinv
  refine ⟨s, hrun, fun hlen => ?_, fun hlen id hid => ?_⟩
  · obtain ⟨-, -, hpair, hmem⟩ := hinv hlen
    refine ⟨hpair, fun id hid => (hmem id hid).1, fun h0 => ?_,
      hpair.imp (fun h => Nat.ne_of_lt h)⟩
    have := (hmem 0 h0).1
    omega
  · obtain ⟨hnext, -, -, hmem⟩ := hinv (by omega)
    have := (hmem id hid).2
    omega

/-- C10, amended, after `Start, Begin, Begin, End, Begin`: the stack is `[1, 3]` and the
next identifier is `4`. -/
theorem track_stack_increasing_witness :
    ∃ s, run (sdkBuild Platform.android) RunState.initial
          [startCall, beginCall, beginCall, endCall, beginCall] = some s
      ∧ s.ids_since_counter_reset.length < 2 ^ 64 - 1
      ∧ s.world.tracer.active_section_track_ids_ = [1, 3]
      ∧ s.world.tracer.next_section_track_id_ = 4
      ∧ s.world.tracer.active_section_track_ids_.Pairwise (fun a c => a < c)
      ∧ ∀ id ∈ s.world.tracer.active_section_track_ids_,
          id < s.world.tracer.next_section_track_id_ := by
  obtain ⟨s, hrun, hinc, hbelow⟩ :=
    track_stack_increasing Platform.android
      [startCall, beginCall, beginCall, endCall, beginCall]
  have hc : (run (sdkBuild Platform.android) RunState.initial
      [startCall, beginCall, beginCall, endCall, beginCall]).map
        (fun s => (s.ids_since_counter_reset.length, s.world.tracer.active_section_track_ids_,
          s.world.tracer.next_section_track_id_)) = some (3, [1, 3], 4) := by
    decide
  rw [hrun] at hc
  simp only [Option.map_some', Option.some.injEq, Prod.mk.injEq] at hc
  have hlen : s.ids_since_counter_reset.length < 2 ^ 64 - 1 := by rw [hc.1]; norm_num
  exact ⟨s, hrun, hlen, hc.2.1, hc.2.2, (hinc (by omega)).1, hbelow hlen⟩

end react_native_perfetto
